import Mathlib

/-!
Shallow embedding of the vfs socket consumer (src/socket/consumer.js).

The consumer keeps seven per-connection maps (stream, process, watcher and
api proxy registries, plus the handlers / pendingOn / pendingOff tables of
the subscription manager).  JavaScript objects are modelled as association
lists with overwrite-on-assign semantics; handler and callback functions
are opaque and modelled by numeric identifiers; every observable action
(wire-level calls, callback invocations, events emitted on proxies) is
recorded in an effect trace.  A JavaScript exception that escapes a
dispatcher is modelled by the `thrown` field of `StepResult`, keeping the
state mutated so far, exactly as the closure-captured maps survive a throw.
-/

namespace VfsConsumer

/-- Lookup in a JavaScript-object-like association list (first binding wins;
the operations below keep keys unique). -/
def alookup {κ α : Type} [DecidableEq κ] : List (κ × α) → κ → Option α
  | [], _ => none
  | p :: rest, k => if p.1 = k then some p.2 else alookup rest k

/-- Deletion of a key, as in the JavaScript `delete m[k]` statement. -/
def adel {κ α : Type} [DecidableEq κ] : List (κ × α) → κ → List (κ × α)
  | [], _ => []
  | p :: rest, k => if p.1 = k then adel rest k else p :: adel rest k

/-- Assignment `m[k] = v`, overwriting any previous binding of `k`. -/
def aset {κ α : Type} [DecidableEq κ] (m : List (κ × α)) (k : κ) (v : α) :
    List (κ × α) :=
  adel m k ++ [(k, v)]

theorem alookup_adel_self {κ α : Type} [DecidableEq κ]
    (m : List (κ × α)) (k : κ) : alookup (adel m k) k = none := by
  induction m with
  | nil => rfl
  | cons p rest ih =>
    by_cases h : p.1 = k
    · simpa [adel, h] using ih
    · simpa [adel, alookup, h] using ih

theorem alookup_adel_ne {κ α : Type} [DecidableEq κ]
    (m : List (κ × α)) (k k' : κ) (h : k' ≠ k) :
    alookup (adel m k) k' = alookup m k' := by
  induction m with
  | nil => rfl
  | cons p rest ih =>
    simp only [adel, alookup]
    by_cases hp : p.1 = k
    · have hpk' : ¬ p.1 = k' := fun hc => h (hc.symm.trans hp)
      rw [if_pos hp, if_neg hpk', ih]
    · rw [if_neg hp]
      simp only [alookup]
      by_cases hq : p.1 = k'
      · rw [if_pos hq, if_pos hq]
      · rw [if_neg hq, if_neg hq, ih]

theorem alookup_append_none {κ α : Type} [DecidableEq κ]
    (m₁ m₂ : List (κ × α)) (k : κ) (h : alookup m₁ k = none) :
    alookup (m₁ ++ m₂) k = alookup m₂ k := by
  induction m₁ with
  | nil => rfl
  | cons p rest ih =>
    by_cases hp : p.1 = k
    · simp [alookup, hp] at h
    · simp [alookup, hp] at h ⊢
      exact ih h

theorem alookup_aset_self {κ α : Type} [DecidableEq κ]
    (m : List (κ × α)) (k : κ) (v : α) : alookup (aset m k v) k = some v := by
  unfold aset
  rw [alookup_append_none _ _ _ (alookup_adel_self m k)]
  simp [alookup]

theorem alookup_append_some {κ α : Type} [DecidableEq κ]
    (m₁ m₂ : List (κ × α)) (k : κ) (v : α) (h : alookup m₁ k = some v) :
    alookup (m₁ ++ m₂) k = some v := by
  induction m₁ with
  | nil => simp [alookup] at h
  | cons p rest ih =>
    by_cases hp : p.1 = k
    · simp [alookup, hp] at h ⊢
      exact h
    · simp [alookup, hp] at h ⊢
      exact ih h

theorem alookup_aset_ne {κ α : Type} [DecidableEq κ]
    (m : List (κ × α)) (k k' : κ) (v : α) (h : k' ≠ k) :
    alookup (aset m k v) k' = alookup m k' := by
  unfold aset
  cases hm : alookup m k' with
  | none =>
    rw [alookup_append_none]
    · have hk : ¬ k = k' := fun hc => h hc.symm
      simp [alookup, hk, hm]
    · rw [alookup_adel_ne m k k' h]
      exact hm
  | some v' =>
    apply alookup_append_some
    rw [alookup_adel_ne m k k' h]
    exact hm

theorem mem_adel_subset {κ α : Type} [DecidableEq κ]
    {m : List (κ × α)} {k : κ} {p : κ × α} (h : p ∈ adel m k) : p ∈ m := by
  induction m with
  | nil => simp [adel] at h
  | cons q rest ih =>
    by_cases hq : q.1 = k
    · simp [adel, hq] at h
      exact List.mem_cons_of_mem _ (ih h)
    · simp [adel, hq] at h
      rcases h with h | h
      · exact h ▸ List.mem_cons_self _ _
      · exact List.mem_cons_of_mem _ (ih h)

theorem mem_adel_key_ne {κ α : Type} [DecidableEq κ]
    {m : List (κ × α)} {k : κ} {p : κ × α} (h : p ∈ adel m k) : p.1 ≠ k := by
  induction m with
  | nil => simp [adel] at h
  | cons q rest ih =>
    by_cases hq : q.1 = k
    · simp [adel, hq] at h
      exact ih h
    · simp [adel, hq] at h
      rcases h with h | h
      · exact h ▸ hq
      · exact ih h

/-- Wire token describing a remote stream (consumer.js lines 60-67): an id
plus optional `readable` / `writable` flags (`hasOwnProperty` checks). -/
structure StreamToken where
  id : Nat
  readable : Option Bool
  writable : Option Bool
deriving DecidableEq, Repr

/-- Local stream proxy stored in `proxyStreams`.  A flag left unset on the
token stays `undefined` on the proxy, which is falsy, hence `getD false`
below when the proxy is built. -/
structure StreamProxy where
  id : Nat
  readable : Bool
  writable : Bool
deriving DecidableEq, Repr

/-- Wire token describing a spawned process (consumer.js lines 86-98). -/
structure ProcessToken where
  pid : Nat
  stdout : StreamToken
  stderr : StreamToken
  stdin : StreamToken
deriving DecidableEq, Repr

/-- Local process proxy stored in `proxyProcesses`; it owns its three
stream proxies, remembered here by their ids. -/
structure ProcessProxy where
  pid : Nat
  stdoutId : Nat
  stderrId : Nat
  stdinId : Nat
deriving DecidableEq, Repr

/-- Wire token describing a watcher (consumer.js lines 100-110). -/
structure WatcherToken where
  id : Nat
deriving DecidableEq, Repr

/-- Local watcher proxy stored in `proxyWatchers`. -/
structure WatcherProxy where
  id : Nat
deriving DecidableEq, Repr

/-- Wire token describing a dynamic API extension
(consumer.js lines 112-121). -/
structure ApiToken where
  name : String
  names : List String
deriving DecidableEq, Repr

/-- Local API proxy stored in `proxyApis`. -/
structure ApiProxy where
  name : String
  names : List String
deriving DecidableEq, Repr

/-- Error message of a remote call, `null` modelled as `none`. -/
abbrev Err := String

/-- A JavaScript exception escaping the consumer code. -/
inductive JsError
  | typeError (msg : String)
  | error (msg : String)
deriving DecidableEq, Repr

/-- The per-connection closure state of `Consumer`
(consumer.js lines 20-26): four proxy registries plus the subscription
manager tables.  Handlers and callbacks are opaque functions identified
by numbers. -/
structure ConsumerState where
  proxyStreams : List (Nat × StreamProxy)
  proxyProcesses : List (Nat × ProcessProxy)
  proxyWatchers : List (Nat × WatcherProxy)
  proxyApis : List (String × ApiProxy)
  handlers : List (String × List Nat)
  pendingOn : List (String × List Nat)
  pendingOff : List (String × List Nat)
deriving DecidableEq, Repr

/-- The state right after the `Consumer` constructor ran: every map empty. -/
def initState : ConsumerState :=
  ⟨[], [], [], [], [], [], []⟩

/-- Observable actions of the consumer: wire-level calls to the remote
side, invocations of caller-supplied callbacks, and events emitted on
local proxies. -/
inductive Effect
  | subscribe (name : String)
  | unsubscribe (name : String)
  | remoteCall (op : String)
  | callback (cb : Nat) (err : Option Err)
  | routeCallback (err : Option Err)
  | callHandler (h : Nat) (value : String)
  | emitDrain (id : Nat)
  | emitExit (pid : Nat) (code : Int) (signal : Option String)
  | emitData (id : Nat) (chunk : String)
  | emitEnd (id : Nat)
  | emitClose (id : Nat)
  | emitChange (id : Nat) (event : String) (filename : String)
  | emitReady (name : String)
deriving DecidableEq, Repr

/-- Result of running one consumer entry point: the state left behind, the
trace of observable effects performed, and the exception that escaped, if
any.  State mutated before a throw survives, as the closure-captured maps
do in JavaScript. -/
structure StepResult where
  state : ConsumerState
  effects : List Effect
  thrown : Option JsError
deriving DecidableEq, Repr

/-- Message of the TypeError Node raises when calling `undefined`. -/
def cbNotFunctionMsg : String := "callback is not a function"

/-- Message of the TypeError Node raises when reading a property of
`undefined`, as in `stream.emit(...)` with `stream === undefined`. -/
def undefinedEmitMsg : String := "Cannot read properties of undefined"

/-- `makeStreamProxy(token)` (consumer.js lines 61-85): build a stream
proxy from a token and register it under `token.id`.  An absent flag
leaves the proxy field undefined, i.e. falsy. -/
def makeStreamProxy (s : ConsumerState) (token : StreamToken) :
    ConsumerState × StreamProxy :=
  let stream : StreamProxy :=
    { id := token.id
      readable := token.readable.getD false
      writable := token.writable.getD false }
  ({ s with proxyStreams := aset s.proxyStreams token.id stream }, stream)

/-- `makeProcessProxy(token)` (consumer.js lines 86-98): register the
process under its pid and build the three owned stream proxies from the
stdout / stderr / stdin sub-tokens. -/
def makeProcessProxy (s : ConsumerState) (token : ProcessToken) :
    ConsumerState × ProcessProxy :=
  let s₁ := (makeStreamProxy s token.stdout).1
  let s₂ := (makeStreamProxy s₁ token.stderr).1
  let s₃ := (makeStreamProxy s₂ token.stdin).1
  let proc : ProcessProxy :=
    { pid := token.pid
      stdoutId := token.stdout.id
      stderrId := token.stderr.id
      stdinId := token.stdin.id }
  ({ s₃ with proxyProcesses := aset s₃.proxyProcesses token.pid proc }, proc)

/-- `makeWatcherProxy(token)` (consumer.js lines 100-110). -/
def makeWatcherProxy (s : ConsumerState) (token : WatcherToken) :
    ConsumerState × WatcherProxy :=
  let watcher : WatcherProxy := { id := token.id }
  ({ s with proxyWatchers := aset s.proxyWatchers token.id watcher }, watcher)

/-- `makeApiProxy(token)` (consumer.js lines 112-121). -/
def makeApiProxy (s : ConsumerState) (token : ApiToken) :
    ConsumerState × ApiProxy :=
  let api : ApiProxy := { name := token.name, names := token.names }
  ({ s with proxyApis := aset s.proxyApis token.name api }, api)

/-- `onExit(pid, code, signal)` (consumer.js lines 123-130): look up the
process proxy, emit "exit" with (code, signal) on it, then delete the
process entry and all three owned stream entries.  When the pid is
unknown, `process.emit` dereferences `undefined` and throws before any
mutation. -/
def onExit (s : ConsumerState) (pid : Nat) (code : Int)
    (signal : Option String) : StepResult :=
  match alookup s.proxyProcesses pid with
  | none => ⟨s, [], some (JsError.typeError undefinedEmitMsg)⟩
  | some process =>
    ⟨{ s with
        proxyProcesses := adel s.proxyProcesses pid
        proxyStreams :=
          adel (adel (adel s.proxyStreams process.stdoutId)
            process.stderrId) process.stdinId },
      [Effect.emitExit pid code signal], none⟩

/-- `onData(id, chunk)` (consumer.js lines 131-134): re-emit "data" on the
stream proxy; an unknown id makes `stream.emit` throw. -/
def onData (s : ConsumerState) (id : Nat) (chunk : String) : StepResult :=
  match alookup s.proxyStreams id with
  | none => ⟨s, [], some (JsError.typeError undefinedEmitMsg)⟩
  | some _ => ⟨s, [Effect.emitData id chunk], none⟩

/-- `onEnd(id)` (consumer.js lines 135-139): re-emit "end" and delete the
stream entry; an unknown id makes `stream.emit` throw (no absence check,
unlike `onClose`). -/
def onEnd (s : ConsumerState) (id : Nat) : StepResult :=
  match alookup s.proxyStreams id with
  | none => ⟨s, [], some (JsError.typeError undefinedEmitMsg)⟩
  | some _ =>
    ⟨{ s with proxyStreams := adel s.proxyStreams id },
      [Effect.emitEnd id], none⟩

/-- `onClose(id)` (consumer.js lines 140-145): return silently when the id
is unknown, otherwise re-emit "close" and delete the entry. -/
def onClose (s : ConsumerState) (id : Nat) : StepResult :=
  match alookup s.proxyStreams id with
  | none => ⟨s, [], none⟩
  | some _ =>
    ⟨{ s with proxyStreams := adel s.proxyStreams id },
      [Effect.emitClose id], none⟩

/-- `onChange(id, event, filename)` (consumer.js lines 147-151): return
silently when the watcher id is unknown, otherwise re-emit "change". -/
def onChange (s : ConsumerState) (id : Nat) (event filename : String) :
    StepResult :=
  match alookup s.proxyWatchers id with
  | none => ⟨s, [], none⟩
  | some _ => ⟨s, [Effect.emitChange id event filename], none⟩

/-- `onReady(name)` (consumer.js lines 153-157): return silently when the
api name is unknown, otherwise re-emit "ready". -/
def onReady (s : ConsumerState) (name : String) : StepResult :=
  match alookup s.proxyApis name with
  | none => ⟨s, [], none⟩
  | some _ => ⟨s, [Effect.emitReady name], none⟩

/-- `onEvent(name, value)` (consumer.js lines 160-166): invoke every
registered local handler for the name in registration order; no entry is
a no-op. -/
def onEvent (s : ConsumerState) (name : String) (value : String) :
    StepResult :=
  match alookup s.handlers name with
  | none => ⟨s, [], none⟩
  | some list => ⟨s, list.map (fun h => Effect.callHandler h value), none⟩

/-- The drain listener installed by the constructor (consumer.js lines
52-58): iterate the stream registry and emit "drain" on every stream
whose `writable` flag is truthy. -/
def onDrain (s : ConsumerState) : List Effect :=
  s.proxyStreams.filterMap
    (fun p => if p.2.writable then some (Effect.emitDrain p.2.id) else none)

/-- `on(name, handler, callback)` (consumer.js lines 168-186); named `on'`
because `on` is a reserved token in Lean.  When an entry exists the
handler is pushed; with a pending subscribe the callback is queued (only
if supplied), otherwise `callback()` is invoked unconditionally, throwing
when it was omitted.  With no entry, a fresh handler list and pending
queue are created and exactly one wire-level subscribe is issued. -/
def on' (s : ConsumerState) (name : String) (handler : Nat)
    (callback : Option Nat) : StepResult :=
  match alookup s.handlers name with
  | some hs =>
    let s₁ := { s with handlers := aset s.handlers name (hs ++ [handler]) }
    match alookup s₁.pendingOn name with
    | some q =>
      match callback with
      | some cb =>
        ⟨{ s₁ with pendingOn := aset s₁.pendingOn name (q ++ [cb]) }, [], none⟩
      | none => ⟨s₁, [], none⟩
    | none =>
      match callback with
      | some cb => ⟨s₁, [Effect.callback cb none], none⟩
      | none => ⟨s₁, [], some (JsError.typeError cbNotFunctionMsg)⟩
  | none =>
    let s₁ := { s with handlers := aset s.handlers name [handler] }
    let pending : List Nat :=
      match callback with
      | some cb => [cb]
      | none => []
    ⟨{ s₁ with pendingOn := aset s₁.pendingOn name pending },
      [Effect.subscribe name], none⟩

/-- The acknowledgement closure passed to `remote.subscribe`
(consumer.js lines 180-185): invoke every queued callback, in queue
order, with the acknowledgement error, then delete the pending queue. -/
def subscribeAck (s : ConsumerState) (name : String) (err : Option Err) :
    ConsumerState × List Effect :=
  ({ s with pendingOn := adel s.pendingOn name },
    ((alookup s.pendingOn name).getD []).map (fun cb => Effect.callback cb err))

/-- `off(name, handler, callback)` (consumer.js lines 188-205).  With a
pending unsubscribe the callback is queued (only if supplied).  With no
handler entry `callback()` is invoked unconditionally, throwing when it
was omitted.  Otherwise a fresh pending queue is created and exactly one
wire-level unsubscribe is issued; the handler argument is never consulted. -/
def off (s : ConsumerState) (name : String) (handler : Nat)
    (callback : Option Nat) : StepResult :=
  match alookup s.pendingOff name with
  | some q =>
    match callback with
    | some cb =>
      ⟨{ s with pendingOff := aset s.pendingOff name (q ++ [cb]) }, [], none⟩
    | none => ⟨s, [], none⟩
  | none =>
    match alookup s.handlers name with
    | none =>
      match callback with
      | some cb => ⟨s, [Effect.callback cb none], none⟩
      | none => ⟨s, [], some (JsError.typeError cbNotFunctionMsg)⟩
    | some _ =>
      let pending : List Nat :=
        match callback with
        | some cb => [cb]
        | none => []
      ⟨{ s with pendingOff := aset s.pendingOff name pending },
        [Effect.unsubscribe name], none⟩

/-- The acknowledgement closure passed to `remote.unsubscribe`
(consumer.js lines 198-204): delete the whole handler entry, invoke every
queued callback in queue order with the acknowledgement error, then
delete the pending queue. -/
def unsubscribeAck (s : ConsumerState) (name : String) (err : Option Err) :
    ConsumerState × List Effect :=
  ({ s with
      handlers := adel s.handlers name
      pendingOff := adel s.pendingOff name },
    ((alookup s.pendingOff name).getD []).map
      (fun cb => Effect.callback cb err))

/-- The invocation side of `route(name)` (consumer.js lines 212-215): a
missing callback throws before anything reaches the transport, otherwise
the remote operation is called. -/
def routeCall (name : String) (callback : Option Nat) :
    List Effect × Option JsError :=
  match callback with
  | none =>
    ([], some (JsError.error ("Forgot to pass in callback for " ++ name)))
  | some _ => ([Effect.remoteCall name], none)

/-- The result object of a remote call, with the four well-known token
fields the facade inspects (consumer.js lines 215-231). -/
structure Meta where
  stream : Option StreamToken
  process : Option ProcessToken
  watcher : Option WatcherToken
  api : Option ApiToken
deriving DecidableEq, Repr

/-- The response closure of `route(name)` (consumer.js lines 215-231): on
error call back with the error alone and touch nothing; on success
replace each present token field with a materialized proxy, then call
back with the transformed result. -/
def routeResponse (s : ConsumerState) (err : Option Err) (meta : Meta) :
    ConsumerState × List Effect :=
  match err with
  | some e => (s, [Effect.routeCallback (some e)])
  | none =>
    let s₁ :=
      match meta.stream with
      | some t => (makeStreamProxy s t).1
      | none => s
    let s₂ :=
      match meta.process with
      | some t => (makeProcessProxy s₁ t).1
      | none => s₁
    let s₃ :=
      match meta.watcher with
      | some t => (makeWatcherProxy s₂ t).1
      | none => s₂
    let s₄ :=
      match meta.api with
      | some t => (makeApiProxy s₃ t).1
      | none => s₃
    (s₄, [Effect.routeCallback none])

/-- Run a sequence of `on` registrations for one event name, stopping at
the first thrown exception and concatenating the effect traces. -/
def runOns : ConsumerState → String → List (Nat × Nat) → StepResult
  | s, _, [] => ⟨s, [], none⟩
  | s, name, (h, cb) :: rest =>
    let r := on' s name h (some cb)
    match r.thrown with
    | some e => ⟨r.state, r.effects, some e⟩
    | none =>
      let r₂ := runOns r.state name rest
      ⟨r₂.state, r.effects ++ r₂.effects, r₂.thrown⟩

/-- Run a sequence of `off` deregistrations for one event name, stopping
at the first thrown exception and concatenating the effect traces. -/
def runOffs : ConsumerState → String → List (Nat × Nat) → StepResult
  | s, _, [] => ⟨s, [], none⟩
  | s, name, (h, cb) :: rest =>
    let r := off s name h (some cb)
    match r.thrown with
    | some e => ⟨r.state, r.effects, some e⟩
    | none =>
      let r₂ := runOffs r.state name rest
      ⟨r₂.state, r.effects ++ r₂.effects, r₂.thrown⟩

theorem alookup_adel_of_none {κ α : Type} [DecidableEq κ]
    (m : List (κ × α)) (k k' : κ) (h : alookup m k = none) :
    alookup (adel m k') k = none := by
  by_cases hk : k = k'
  · subst hk
    exact alookup_adel_self m k
  · rw [alookup_adel_ne m k' k hk]
    exact h

/-- While a subscribe is pending for `name`, every further `on` call just
appends its handler and queues its callback: no effect is produced and no
exception is thrown. -/
theorem runOns_pending (name : String) (regs : List (Nat × Nat)) :
    ∀ (s : ConsumerState) (hs q : List Nat),
    alookup s.handlers name = some hs →
    alookup s.pendingOn name = some q →
    ∃ s₂, runOns s name regs = ⟨s₂, [], none⟩ ∧
      alookup s₂.handlers name = some (hs ++ regs.map Prod.fst) ∧
      alookup s₂.pendingOn name = some (q ++ regs.map Prod.snd) := by
  induction regs with
  | nil =>
    intro s hs q hh hp
    refine ⟨s, rfl, ?_, ?_⟩
    · simpa using hh
    · simpa using hp
  | cons r rest ih =>
    obtain ⟨h, cb⟩ := r
    intro s hs q hh hp
    have hstep : on' s name h (some cb) =
        ⟨{ s with
            handlers := aset s.handlers name (hs ++ [h])
            pendingOn := aset s.pendingOn name (q ++ [cb]) }, [], none⟩ := by
      simp [on', hh, hp]
    obtain ⟨s₂, hrun, hh₂, hp₂⟩ :=
      ih { s with
            handlers := aset s.handlers name (hs ++ [h])
            pendingOn := aset s.pendingOn name (q ++ [cb]) }
        (hs ++ [h]) (q ++ [cb])
        (by simpa using alookup_aset_self s.handlers name (hs ++ [h]))
        (by simpa using alookup_aset_self s.pendingOn name (q ++ [cb]))
    refine ⟨s₂, ?_, ?_, ?_⟩
    · simp [runOns, hstep, hrun]
    · simpa [List.append_assoc] using hh₂
    · simpa [List.append_assoc] using hp₂

/-- While an unsubscribe is pending for `name`, every further `off` call
just queues its callback: no effect, no exception, handlers untouched. -/
theorem runOffs_pending (name : String) (calls : List (Nat × Nat)) :
    ∀ (s : ConsumerState) (q : List Nat),
    alookup s.pendingOff name = some q →
    ∃ s₂, runOffs s name calls = ⟨s₂, [], none⟩ ∧
      alookup s₂.pendingOff name = some (q ++ calls.map Prod.snd) ∧
      s₂.handlers = s.handlers := by
  induction calls with
  | nil =>
    intro s q hq
    refine ⟨s, rfl, ?_, rfl⟩
    simpa using hq
  | cons c rest ih =>
    obtain ⟨h, cb⟩ := c
    intro s q hq
    have hstep : off s name h (some cb) =
        ⟨{ s with pendingOff := aset s.pendingOff name (q ++ [cb]) },
          [], none⟩ := by
      simp [off, hq]
    obtain ⟨s₂, hrun, hq₂, hhd₂⟩ :=
      ih { s with pendingOff := aset s.pendingOff name (q ++ [cb]) }
        (q ++ [cb])
        (by simpa using alookup_aset_self s.pendingOff name (q ++ [cb]))
    refine ⟨s₂, ?_, ?_, ?_⟩
    · simp [runOffs, hstep, hrun]
    · simpa [List.append_assoc] using hq₂
    · simpa using hhd₂

/-- C1: for every event name, registering N local handlers via
`on(name, handler, callback)` before the subscribe acknowledgement
arrives issues exactly one wire-level subscribe for that name (and no
other effect, so no callback fires before the acknowledgement), records
all N handlers, and on the acknowledgement the N queued callbacks are
invoked in the order they were queued, each with the acknowledgement's
error, after which the pending queue is gone. -/
theorem c1_single_subscribe_queued_callbacks (s : ConsumerState)
    (name : String) (first : Nat × Nat) (rest : List (Nat × Nat))
    (err : Option Err)
    (hh : alookup s.handlers name = none) :
    ∃ s₂,
      runOns s name (first :: rest) =
        ⟨s₂, [Effect.subscribe name], none⟩ ∧
      alookup s₂.handlers name = some ((first :: rest).map Prod.fst) ∧
      (subscribeAck s₂ name err).2 =
        (first :: rest).map (fun r => Effect.callback r.2 err) ∧
      alookup (subscribeAck s₂ name err).1.pendingOn name = none := by
  obtain ⟨h, cb⟩ := first
  have hstep : on' s name h (some cb) =
      ⟨{ s with
          handlers := aset s.handlers name [h]
          pendingOn := aset s.pendingOn name [cb] },
        [Effect.subscribe name], none⟩ := by
    simp [on', hh]
  obtain ⟨s₂, hrun, hh₂, hp₂⟩ :=
    runOns_pending name rest
      { s with
          handlers := aset s.handlers name [h]
          pendingOn := aset s.pendingOn name [cb] }
      [h] [cb]
      (by simpa using alookup_aset_self s.handlers name [h])
      (by simpa using alookup_aset_self s.pendingOn name [cb])
  refine ⟨s₂, ?_, ?_, ?_, ?_⟩
  · simp [runOns, hstep, hrun]
  · simpa using hh₂
  · simp [subscribeAck, hp₂]
  · simp [subscribeAck, alookup_adel_self]

theorem c1_witness :
    alookup initState.handlers "a" = none ∧
    ∃ s₂,
      runOns initState "a" [(1, 10), (2, 20), (3, 30)] =
        ⟨s₂, [Effect.subscribe "a"], none⟩ ∧
      alookup s₂.handlers "a" =
        some ([(1, 10), (2, 20), (3, 30)].map Prod.fst) ∧
      (subscribeAck s₂ "a" (some "E")).2 =
        [(1, 10), (2, 20), (3, 30)].map
          (fun r => Effect.callback r.2 (some "E")) ∧
      alookup (subscribeAck s₂ "a" (some "E")).1.pendingOn "a" = none :=
  ⟨rfl,
    c1_single_subscribe_queued_callbacks initState "a" (1, 10)
      [(2, 20), (3, 30)] (some "E") rfl⟩

/-- C3: processing an exit notification for a registered process proxy
emits "exit" with (code, signal) on that proxy and removes both the
process entry and all three owned stream entries, whatever the current
content of the stream registry is (so also when some of the streams were
already gone through end or close). -/
theorem c3_exit_removes_process_and_streams (s : ConsumerState)
    (pid : Nat) (code : Int) (signal : Option String) (proc : ProcessProxy)
    (h : alookup s.proxyProcesses pid = some proc) :
    ∃ s₂,
      onExit s pid code signal =
        ⟨s₂, [Effect.emitExit pid code signal], none⟩ ∧
      alookup s₂.proxyProcesses pid = none ∧
      alookup s₂.proxyStreams proc.stdoutId = none ∧
      alookup s₂.proxyStreams proc.stderrId = none ∧
      alookup s₂.proxyStreams proc.stdinId = none := by
  refine ⟨{ s with
      proxyProcesses := adel s.proxyProcesses pid
      proxyStreams :=
        adel (adel (adel s.proxyStreams proc.stdoutId) proc.stderrId)
          proc.stdinId }, ?_, ?_, ?_, ?_, ?_⟩
  · simp [onExit, h]
  · simpa using alookup_adel_self s.proxyProcesses pid
  · exact alookup_adel_of_none _ _ _
      (alookup_adel_of_none _ _ _ (alookup_adel_self _ _))
  · exact alookup_adel_of_none _ _ _ (alookup_adel_self _ _)
  · simpa using alookup_adel_self
      (adel (adel s.proxyStreams proc.stdoutId) proc.stderrId) proc.stdinId

theorem c3_witness :
    alookup (makeProcessProxy initState
        ⟨7, ⟨1, some true, none⟩, ⟨2, some true, none⟩,
          ⟨3, none, some true⟩⟩).1.proxyProcesses 7 = some ⟨7, 1, 2, 3⟩ ∧
    ∃ s₂,
      onExit (makeProcessProxy initState
          ⟨7, ⟨1, some true, none⟩, ⟨2, some true, none⟩,
            ⟨3, none, some true⟩⟩).1 7 0 none =
        ⟨s₂, [Effect.emitExit 7 0 none], none⟩ ∧
      alookup s₂.proxyProcesses 7 = none ∧
      alookup s₂.proxyStreams (ProcessProxy.stdoutId ⟨7, 1, 2, 3⟩) = none ∧
      alookup s₂.proxyStreams (ProcessProxy.stderrId ⟨7, 1, 2, 3⟩) = none ∧
      alookup s₂.proxyStreams (ProcessProxy.stdinId ⟨7, 1, 2, 3⟩) = none :=
  ⟨rfl,
    c3_exit_removes_process_and_streams _ 7 0 none ⟨7, 1, 2, 3⟩ rfl⟩

/-- C4: for a name with an active handler entry and no pending
unsubscribe, a first `off` call (followed by any further `off` calls
before the acknowledgement) issues exactly one wire-level unsubscribe and
leaves the handlers in place; on the acknowledgement the whole entry is
deleted — every registered handler is dropped, not only the one passed to
`off` — and the queued callbacks are invoked in order with the
acknowledgement's error. -/
theorem c4_unsubscribe_drops_whole_entry (s : ConsumerState)
    (name : String) (first : Nat × Nat) (rest : List (Nat × Nat))
    (err : Option Err) (hs : List Nat)
    (hpoff : alookup s.pendingOff name = none)
    (hh : alookup s.handlers name = some hs) :
    ∃ s₂,
      runOffs s name (first :: rest) =
        ⟨s₂, [Effect.unsubscribe name], none⟩ ∧
      alookup s₂.handlers name = some hs ∧
      alookup (unsubscribeAck s₂ name err).1.handlers name = none ∧
      alookup (unsubscribeAck s₂ name err).1.pendingOff name = none ∧
      (unsubscribeAck s₂ name err).2 =
        (first :: rest).map (fun c => Effect.callback c.2 err) := by
  obtain ⟨h, cb⟩ := first
  have hstep : off s name h (some cb) =
      ⟨{ s with pendingOff := aset s.pendingOff name [cb] },
        [Effect.unsubscribe name], none⟩ := by
    simp [off, hpoff, hh]
  obtain ⟨s₂, hrun, hq₂, hhd₂⟩ :=
    runOffs_pending name rest
      { s with pendingOff := aset s.pendingOff name [cb] } [cb]
      (by simpa using alookup_aset_self s.pendingOff name [cb])
  refine ⟨s₂, ?_, ?_, ?_, ?_, ?_⟩
  · simp [runOffs, hstep, hrun]
  · rw [hhd₂]
    simpa using hh
  · simp [unsubscribeAck, alookup_adel_self]
  · simp [unsubscribeAck, alookup_adel_self]
  · simp [unsubscribeAck, hq₂]

theorem c4_witness :
    alookup (⟨[], [], [], [], [("a", [7, 8])], [], []⟩ :
        ConsumerState).pendingOff "a" = none ∧
    alookup (⟨[], [], [], [], [("a", [7, 8])], [], []⟩ :
        ConsumerState).handlers "a" = some [7, 8] ∧
    ∃ s₂,
      runOffs ⟨[], [], [], [], [("a", [7, 8])], [], []⟩ "a"
          [(7, 10), (9, 20)] =
        ⟨s₂, [Effect.unsubscribe "a"], none⟩ ∧
      alookup s₂.handlers "a" = some [7, 8] ∧
      alookup (unsubscribeAck s₂ "a" none).1.handlers "a" = none ∧
      alookup (unsubscribeAck s₂ "a" none).1.pendingOff "a" = none ∧
      (unsubscribeAck s₂ "a" none).2 =
        [(7, 10), (9, 20)].map (fun c => Effect.callback c.2 none) :=
  ⟨rfl, rfl,
    c4_unsubscribe_drops_whole_entry _ "a" (7, 10) [(9, 20)] none [7, 8]
      rfl rfl⟩

/-- C2 (counterexample): the claim that a data or exit notification with
an unknown identifier raises no exception is false: on the freshly
constructed consumer state, `onData(1, "x")` and `onExit(7, 0, null)`
both throw a TypeError from dereferencing `undefined`. -/
theorem c2_counterexample :
    (onData initState 1 "x").thrown =
      some (JsError.typeError undefinedEmitMsg) ∧
    (onExit initState 7 0 none).thrown =
      some (JsError.typeError undefinedEmitMsg) :=
  ⟨rfl, rfl⟩

/-- C2 (amended): for every inbound data or exit notification whose
identifier is absent from the corresponding registry, the handler throws
an uncaught TypeError; no error-reporting path exists, no event is
emitted, and the registries are left unchanged. -/
theorem c2_unknown_id_throws (s : ConsumerState) (id pid : Nat)
    (chunk : String) (code : Int) (signal : Option String)
    (hstream : alookup s.proxyStreams id = none)
    (hproc : alookup s.proxyProcesses pid = none) :
    onData s id chunk =
      ⟨s, [], some (JsError.typeError undefinedEmitMsg)⟩ ∧
    onExit s pid code signal =
      ⟨s, [], some (JsError.typeError undefinedEmitMsg)⟩ := by
  constructor
  · simp [onData, hstream]
  · simp [onExit, hproc]

theorem c2_witness :
    alookup initState.proxyStreams 1 = none ∧
    alookup initState.proxyProcesses 7 = none ∧
    (onData initState 1 "x" =
        ⟨initState, [], some (JsError.typeError undefinedEmitMsg)⟩ ∧
      onExit initState 7 0 none =
        ⟨initState, [], some (JsError.typeError undefinedEmitMsg)⟩) :=
  ⟨rfl, rfl, c2_unknown_id_throws initState 1 7 "x" 0 none rfl rfl⟩

/-- C5: when the remote call behind a facade operation completes with an
error, the response handler calls back with that error alone, constructs
no proxy and mutates none of the four registries: the consumer state is
returned unchanged. -/
theorem c5_remote_error_no_mutation (s : ConsumerState) (e : Err)
    (meta : Meta) :
    routeResponse s (some e) meta = (s, [Effect.routeCallback (some e)]) :=
  rfl

/-- C6: invoking a facade operation without a callback throws
immediately and forwards nothing to the transport: the effect trace of
`routeCall` is empty and the thrown error names the operation. -/
theorem c6_missing_callback_fails_fast (name : String) :
    routeCall name none =
      ([], some (JsError.error ("Forgot to pass in callback for " ++ name))) :=
  rfl

/-- C7: calling `off(name, handler, callback)` for a name with no active
handler entry and no pending unsubscribe invokes the callback
immediately (with no error argument), issues no wire-level unsubscribe,
and leaves the state unchanged. -/
theorem c7_off_no_entry_immediate (s : ConsumerState) (name : String)
    (handler cb : Nat)
    (hpoff : alookup s.pendingOff name = none)
    (hh : alookup s.handlers name = none) :
    off s name handler (some cb) = ⟨s, [Effect.callback cb none], none⟩ := by
  simp [off, hpoff, hh]

theorem c7_witness :
    alookup initState.pendingOff "a" = none ∧
    alookup initState.handlers "a" = none ∧
    off initState "a" 5 (some 9) =
      ⟨initState, [Effect.callback 9 none], none⟩ :=
  ⟨rfl, rfl, c7_off_no_entry_immediate initState "a" 5 9 rfl rfl⟩

/-- C8: a drain notification is re-emitted as "drain" on exactly the
stream proxies that are registered at that moment and are writable, and
on no stream that was removed from the registry before the drain is
processed.  The hypothesis states the registry invariant that every
stored proxy carries the id it is keyed under. -/
theorem c8_drain_only_registered_writable (s : ConsumerState) (i : Nat)
    (hwf : ∀ p ∈ s.proxyStreams, (p.2).id = p.1) :
    (Effect.emitDrain i ∈ onDrain s ↔
      ∃ p, p ∈ s.proxyStreams ∧ p.1 = i ∧ p.2.writable = true) ∧
    Effect.emitDrain i ∉
      onDrain { s with proxyStreams := adel s.proxyStreams i } := by
  constructor
  · constructor
    · intro hmem
      rw [onDrain, List.mem_filterMap] at hmem
      obtain ⟨p, hp, hf⟩ := hmem
      by_cases hw : p.2.writable
      · simp [hw] at hf
        exact ⟨p, hp, (hwf p hp).symm.trans hf, hw⟩
      · simp [hw] at hf
    · rintro ⟨p, hp, hpi, hw⟩
      rw [onDrain, List.mem_filterMap]
      exact ⟨p, hp, by simp [hw, hwf p hp, hpi]⟩
  · intro hmem
    rw [onDrain, List.mem_filterMap] at hmem
    obtain ⟨p, hp, hf⟩ := hmem
    have h₁ : p ∈ s.proxyStreams := mem_adel_subset hp
    have h₂ : p.1 ≠ i := mem_adel_key_ne hp
    by_cases hw : p.2.writable
    · simp [hw] at hf
      exact h₂ ((hwf p h₁).symm.trans hf)
    · simp [hw] at hf

theorem c8_witness :
    (∀ p ∈ (⟨[(1, ⟨1, true, false⟩), (2, ⟨2, false, true⟩)],
        [], [], [], [], [], []⟩ : ConsumerState).proxyStreams,
      (p.2).id = p.1) ∧
    ((Effect.emitDrain 2 ∈ onDrain
        ⟨[(1, ⟨1, true, false⟩), (2, ⟨2, false, true⟩)],
          [], [], [], [], [], []⟩ ↔
      ∃ p, p ∈ (⟨[(1, ⟨1, true, false⟩), (2, ⟨2, false, true⟩)],
          [], [], [], [], [], []⟩ : ConsumerState).proxyStreams ∧
        p.1 = 2 ∧ p.2.writable = true) ∧
    Effect.emitDrain 2 ∉
      onDrain { (⟨[(1, ⟨1, true, false⟩), (2, ⟨2, false, true⟩)],
          [], [], [], [], [], []⟩ : ConsumerState) with
        proxyStreams := adel [(1, ⟨1, true, false⟩),
          (2, ⟨2, false, true⟩)] 2 }) :=
  ⟨by decide,
    c8_drain_only_registered_writable
      ⟨[(1, ⟨1, true, false⟩), (2, ⟨2, false, true⟩)],
        [], [], [], [], [], []⟩ 2 (by decide)⟩

/-- C9: the callback argument of `on` and `off` is treated
inconsistently.  On the two immediate paths (`on` with an existing entry
and no pending subscribe; `off` with no pending unsubscribe and no
entry) the callback is invoked unconditionally, so omitting it throws a
TypeError; on every queued path (pending subscribe just created or
already open, pending unsubscribe just created or already open) an
omitted callback is accepted without any exception. -/
theorem c9_optional_callback_inconsistency (name : String)
    (handler : Nat) :
    (∀ (s : ConsumerState) (hs : List Nat),
      alookup s.handlers name = some hs →
      alookup s.pendingOn name = none →
      (on' s name handler none).thrown =
        some (JsError.typeError cbNotFunctionMsg)) ∧
    (∀ (s : ConsumerState) (hs q : List Nat),
      alookup s.handlers name = some hs →
      alookup s.pendingOn name = some q →
      (on' s name handler none).thrown = none) ∧
    (∀ s : ConsumerState, alookup s.handlers name = none →
      (on' s name handler none).thrown = none) ∧
    (∀ (s : ConsumerState) (q : List Nat),
      alookup s.pendingOff name = some q →
      (off s name handler none).thrown = none) ∧
    (∀ s : ConsumerState, alookup s.pendingOff name = none →
      alookup s.handlers name = none →
      (off s name handler none).thrown =
        some (JsError.typeError cbNotFunctionMsg)) ∧
    (∀ (s : ConsumerState) (hs : List Nat),
      alookup s.pendingOff name = none →
      alookup s.handlers name = some hs →
      (off s name handler none).thrown = none) := by
  refine ⟨?_, ?_, ?_, ?_, ?_, ?_⟩
  · intro s hs hh hp
    simp [on', hh, hp]
  · intro s hs q hh hp
    simp [on', hh, hp]
  · intro s hh
    simp [on', hh]
  · intro s q hq
    simp [off, hq]
  · intro s hq hh
    simp [off, hq, hh]
  · intro s hs hq hh
    simp [off, hq, hh]

theorem c9_witness :
    (on' ⟨[], [], [], [], [("a", [7])], [], []⟩ "a" 5 none).thrown =
      some (JsError.typeError cbNotFunctionMsg) ∧
    (on' ⟨[], [], [], [], [("a", [7])], [("a", [9])], []⟩ "a" 5
      none).thrown = none ∧
    (on' initState "a" 5 none).thrown = none ∧
    (off ⟨[], [], [], [], [("a", [7])], [], [("a", [9])]⟩ "a" 5
      none).thrown = none ∧
    (off initState "a" 5 none).thrown =
      some (JsError.typeError cbNotFunctionMsg) ∧
    (off ⟨[], [], [], [], [("a", [7])], [], []⟩ "a" 5 none).thrown =
      none :=
  ⟨(c9_optional_callback_inconsistency "a" 5).1 _ [7] rfl rfl,
    (c9_optional_callback_inconsistency "a" 5).2.1 _ [7] [9] rfl rfl,
    (c9_optional_callback_inconsistency "a" 5).2.2.1 _ rfl,
    (c9_optional_callback_inconsistency "a" 5).2.2.2.1 _ [9] rfl,
    (c9_optional_callback_inconsistency "a" 5).2.2.2.2.1 _ rfl rfl,
    (c9_optional_callback_inconsistency "a" 5).2.2.2.2.2 _ [7] rfl rfl⟩

/-- C10: an end notification for an id absent from the stream registry
throws (the entry is dereferenced without an absence check), while
close, change and ready notifications with absent identifiers return
silently, emit nothing and leave the whole state unchanged. -/
theorem c10_end_throws_tolerant_noop (s : ConsumerState) (id wid : Nat)
    (apiName event filename : String)
    (hstream : alookup s.proxyStreams id = none)
    (hwatch : alookup s.proxyWatchers wid = none)
    (hapi : alookup s.proxyApis apiName = none) :
    onEnd s id = ⟨s, [], some (JsError.typeError undefinedEmitMsg)⟩ ∧
    onClose s id = ⟨s, [], none⟩ ∧
    onChange s wid event filename = ⟨s, [], none⟩ ∧
    onReady s apiName = ⟨s, [], none⟩ := by
  refine ⟨?_, ?_, ?_, ?_⟩
  · simp [onEnd, hstream]
  · simp [onClose, hstream]
  · simp [onChange, hwatch]
  · simp [onReady, hapi]

theorem c10_witness :
    alookup initState.proxyStreams 1 = none ∧
    alookup initState.proxyWatchers 2 = none ∧
    alookup initState.proxyApis "m" = none ∧
    (onEnd initState 1 =
        ⟨initState, [], some (JsError.typeError undefinedEmitMsg)⟩ ∧
      onClose initState 1 = ⟨initState, [], none⟩ ∧
      onChange initState 2 "change" "f" = ⟨initState, [], none⟩ ∧
      onReady initState "m" = ⟨initState, [], none⟩) :=
  ⟨rfl, rfl, rfl,
    c10_end_throws_tolerant_noop initState 1 2 "m" "change" "f" rfl rfl rfl⟩

end VfsConsumer
